import Mathlib

/-!
Shallow embedding of `src/components/LinearAuthButton.tsx` (synclinear.com).

The React component is modelled as a record of its `useState` fields
(`CompState`) plus pure transition functions, one per `useEffect` body,
promise `then`/`catch` handler, and callback.  Calls to external
collaborators (`exchangeLinearToken`, `getLinearContext`,
`checkForExistingTeam`, `saveLinearContext`, `setLinearWebhook`,
`clearURLParams`, the `onAuth` / `onDeployWebhook` props, `localStorage`
and `window.location`) are recorded as `Effect` values in the order the
code performs them.  JavaScript truthiness of strings ("" is falsy) and of
optional values (`undefined` is falsy, objects are truthy) is modelled
explicitly, and a JavaScript `TypeError` raised inside a `.then` callback
is modelled as control transferring to the attached `.catch` handler with
an abstract error string.
-/

/-- `LinearTeam` from `typings`: the fields this component reads. -/
structure LinearTeam where
  id : String
  name : String
  deriving DecidableEq

/-- `LinearObject` from `typings`: the viewer object; the component reads `id`. -/
structure LinearObject where
  id : String
  deriving DecidableEq

/-- `LinearContext` as passed to `onDeployWebhook`. -/
structure LinearContext where
  userId : String
  teamId : String
  apiKey : String
  deriving DecidableEq

/-- The `teams` connection in the `getLinearContext` GraphQL response: `{ nodes: [...] }`. -/
structure TeamsConnection where
  nodes : List LinearTeam
  deriving DecidableEq

/-- The `data` object of the `getLinearContext` response; either field may be absent. -/
structure ContextData where
  teams : Option TeamsConnection
  viewer : Option LinearObject
  deriving DecidableEq

/-- The `getLinearContext` response; its `data` field may be absent. -/
structure ContextResponse where
  data : Option ContextData
  deriving DecidableEq

/-- The `checkForExistingTeam` response body `{ exists: boolean }`.
The JavaScript field is named `exists`, a Lean keyword, hence `exists_`. -/
structure CheckResponse where
  exists_ : Bool
  deriving DecidableEq

/-- The parsed body of the `exchangeLinearToken` response: `access_token` may be absent. -/
structure TokenBody where
  access_token : Option String
  deriving DecidableEq

/-- The `useState` fields of `LinearAuthButton`. -/
structure CompState where
  accessToken : String
  teams : List LinearTeam
  chosenTeam : Option LinearTeam
  user : Option LinearObject
  deployed : Bool
  loading : Bool
  deriving DecidableEq

/-- Initial state: `useState("")`, `useState([])`, `useState<LinearTeam>()`,
`useState<LinearObject>()`, `useState(false)`, `useState(false)`. -/
def initialState : CompState :=
  { accessToken := "", teams := [], chosenTeam := none, user := none,
    deployed := false, loading := false }

/-- Modelled from the spec: the storage key constant `LINEAR.STORAGE_KEY` lives in
`utils/constants`, which is not among the sources; the spec describes it as the key
holding the broader serialized integration context.  Its literal value is irrelevant
to every claim, so it is kept as a fixed named string. -/
def LINEAR_STORAGE_KEY : String := "LINEAR.STORAGE_KEY"

/-- Modelled from the spec: the string rendering of a JavaScript `TypeError` raised by
an unguarded property access (e.g. `user.id` with `user` undefined); the exact text is
runtime-dependent and no claim depends on it. -/
def typeErrorMsg : String := "TypeError"

/-- External interactions performed by the component, in program order. -/
inductive Effect where
  | alert (msg : String)
  | exchangeLinearToken (code : String)
  | clearURLParams
  | removeStorageItem (key : String)
  | setStorageItem (key value : String)
  | openAuthURL (verificationCode : String)
  | onAuth (apiKey : String)
  | getLinearContext (apiKey : String)
  | checkForExistingTeam (teamId : String)
  | onDeployWebhook (context : LinearContext)
  | saveLinearContext (apiKey : String) (team : LinearTeam)
  | setLinearWebhook (apiKey : String) (teamId : String)
  deriving DecidableEq

/-- `needle` occurs as a contiguous substring of the list. -/
def includesAux (needle : List Char) : List Char → Bool
  | [] => needle.isEmpty
  | c :: rest =>
      decide (needle = (c :: rest).take needle.length) || includesAux needle rest

/-- JavaScript `hay.includes(needle)` on strings. -/
def strIncludes (hay needle : String) : Bool :=
  includesAux needle.data hay.data

/-- `authResponse.get("state")?.includes("linear")`: `undefined?.includes(...)` is
`undefined`, which is falsy. -/
def stateHasLinearMarker (st : Option String) : Bool :=
  match st with
  | none => false
  | some v => strIncludes v "linear"

/-- JavaScript truthiness of an optional string field (`undefined` and `""` are falsy). -/
def isTruthyOptStr (o : Option String) : Bool :=
  match o with
  | none => false
  | some v => v ≠ ""

/-- `user?.id` truthiness: truthy iff `user` is present and its `id` is a non-empty string. -/
def userIdTruthy (u : Option LinearObject) : Bool :=
  match u with
  | none => false
  | some v => v.id ≠ ""

/-- The first `useEffect` (deps `[]`), lines 38-71: if an auth `code` query parameter is
present, validate the echoed `state` against the stored verification code and start the
token exchange.  Inputs: the component state captured by the effect closure, the `code`
and `state` query parameters, and `localStorage.getItem("linear-verification")`. -/
def authCodeEffect (s : CompState) (locCode locState storedVerification : Option String) :
    CompState × List Effect :=
  if s.accessToken ≠ "" then (s, [])
  else
    match locCode with
    | none => (s, [])
    | some code =>
        if ¬ stateHasLinearMarker locState then (s, [])
        else if locState ≠ storedVerification then
          (s, [Effect.alert "Linear auth returned an invalid code. Please try again."])
        else
          ({ s with loading := true }, [Effect.exchangeLinearToken code])

/-- The `.then` handler of `exchangeLinearToken`: stores a truthy `access_token`,
otherwise alerts, clears the URL parameters and removes the stored context key;
`setLoading(false)` in both branches. -/
def exchangeThen (s : CompState) (body : TokenBody) : CompState × List Effect :=
  if isTruthyOptStr body.access_token then
    ({ s with accessToken := body.access_token.getD "", loading := false }, [])
  else
    ({ s with loading := false },
     [Effect.alert "No Linear access token returned. Please try again.",
      Effect.clearURLParams,
      Effect.removeStorageItem LINEAR_STORAGE_KEY])

/-- The `.catch` handler of `exchangeLinearToken`: alert the error and stop loading. -/
def exchangeCatch (s : CompState) (err : String) : CompState × List Effect :=
  ({ s with loading := false }, [Effect.alert ("Error fetching access token: " ++ err)])

/-- The second `useEffect` (deps `[restoredApiKey]`), lines 74-76: restore a stored key. -/
def restoreEffect (s : CompState) (restoredApiKey : String) : CompState :=
  if restoredApiKey ≠ "" then { s with accessToken := restoredApiKey } else s

/-- The third `useEffect` (deps `[accessToken]`), lines 79-94: once a token is available
and no user is known yet, emit `onAuth` and fetch the Linear context. -/
def accessTokenEffect (s : CompState) : CompState × List Effect :=
  if s.accessToken = "" then (s, [])
  else if userIdTruthy s.user then (s, [])
  else (s, [Effect.onAuth s.accessToken, Effect.getLinearContext s.accessToken])

/-- The condition `!res?.data?.teams || !res.data?.viewer` (objects are truthy;
optional chaining yields `undefined`, which is falsy; `||` short-circuits). -/
def contextResponseMissing (res : Option ContextResponse) : Bool :=
  match res with
  | none => true
  | some r =>
      match r.data with
      | none => true
      | some d => d.teams.isNone || d.viewer.isNone

/-- The `.then` handler of `getLinearContext` together with the `.catch` attached to the
same chain.  The body alerts when teams or viewer are missing, then runs
`setTeams(res.data.teams.nodes); setUser(res.data.viewer)`: evaluating
`res.data.teams.nodes` throws a `TypeError` when `res`, `res.data` or `res.data.teams`
is undefined, which skips both state updates and lands in the `.catch`, producing a
second alert. -/
def getLinearContextHandler (s : CompState) (res : Option ContextResponse) :
    CompState × List Effect :=
  let pre : List Effect :=
    if contextResponseMissing res then [Effect.alert "No Linear user or teams found"] else []
  match res with
  | some { data := some d } =>
      match d.teams with
      | some conn => ({ s with teams := conn.nodes, user := d.viewer }, pre)
      | none => (s, pre ++ [Effect.alert ("Error fetching labels: " ++ typeErrorMsg)])
  | _ => (s, pre ++ [Effect.alert ("Error fetching labels: " ++ typeErrorMsg)])

/-- The `.catch` handler of `getLinearContext` for a transport error. -/
def getLinearContextCatch (s : CompState) (err : String) : CompState × List Effect :=
  (s, [Effect.alert ("Error fetching labels: " ++ err)])

/-- "Ready" in the sense of spec section 4.2: the context fetch has populated the
viewer (`UserDescriptor`); the team list may legitimately be empty. -/
def reachedReady (s : CompState) : Bool :=
  s.user.isSome

/-- The render values captured by the closure passed to
`checkForExistingTeam(...).then(...)` (and by `deployWebhook`'s `setLinearWebhook`
`.then`): `chosenTeam`, `user` and `accessToken` as of the render in which the
effect ran — not as of promise resolution. -/
structure CheckCapture where
  chosenTeam : LinearTeam
  user : Option LinearObject
  accessToken : String
  deriving DecidableEq

/-- The fourth `useEffect` (deps `[chosenTeam]`), lines 97-120, synchronous part:
return if no team is chosen, else set loading and issue the dedup check.  Also
returns the closure capture for the pending `.then`. -/
def chosenTeamEffect (s : CompState) : CompState × List Effect × Option CheckCapture :=
  match s.chosenTeam with
  | none => (s, [], none)
  | some t =>
      ({ s with loading := true }, [Effect.checkForExistingTeam t.id],
       some { chosenTeam := t, user := s.user, accessToken := s.accessToken })

/-- Selecting a team from the dropdown: `setChosenTeam` followed by the re-run of the
`[chosenTeam]` effect against the updated state. -/
def selectTeam (s : CompState) (team : LinearTeam) : CompState × List Effect × Option CheckCapture :=
  chosenTeamEffect { s with chosenTeam := some team }

/-- `res?.exists` truthiness: falsy when the response is undefined. -/
def checkExists (res : Option CheckResponse) : Bool :=
  match res with
  | none => false
  | some r => r.exists_

/-- The `.then` handler of `checkForExistingTeam` with its `.catch`.  On a truthy
`exists` it runs `setDeployed(true)` and then emits `onDeployWebhook` built from the
captured `user.id`, `chosenTeam.id` and `accessToken`; if the captured `user` is
undefined, building the context object throws after `setDeployed(true)` and the
`.catch` alerts and stops loading.  Otherwise it runs `setDeployed(false)`.
`setLoading(false)` runs at the end of the body (or in the `.catch`).  Note the
handler never consults the state at resolution time for staleness. -/
def checkForExistingTeamHandler (cap : CheckCapture) (s : CompState)
    (res : Option CheckResponse) : CompState × List Effect :=
  if checkExists res then
    match cap.user with
    | some u =>
        ({ s with deployed := true, loading := false },
         [Effect.onDeployWebhook
            { userId := u.id, teamId := cap.chosenTeam.id, apiKey := cap.accessToken }])
    | none =>
        ({ s with deployed := true, loading := false },
         [Effect.alert ("Error checking for existing labels: " ++ typeErrorMsg)])
  else
    ({ s with deployed := false, loading := false }, [])

/-- The `.catch` handler of `checkForExistingTeam` for a transport error. -/
def checkForExistingTeamCatch (s : CompState) (err : String) : CompState × List Effect :=
  ({ s with loading := false }, [Effect.alert ("Error checking for existing labels: " ++ err)])

/-- `openLinearAuth`, lines 122-129: store a fresh `linear-` verification code and
navigate to the auth URL built from it. -/
def openLinearAuth (uuidStr : String) : List Effect :=
  let verificationCode := "linear-" ++ uuidStr
  [Effect.setStorageItem "linear-verification" verificationCode,
   Effect.openAuthURL verificationCode]

/-- `deployWebhook` (lines 131-150), synchronous part: guard
`if (!chosenTeam || deployed) return`, then issue `saveLinearContext` and
`setLinearWebhook`, then `setDeployed(true)` before either promise resolves. -/
def deployWebhook (s : CompState) : CompState × List Effect :=
  match s.chosenTeam with
  | none => (s, [])
  | some t =>
      if s.deployed then (s, [])
      else
        ({ s with deployed := true },
         [Effect.saveLinearContext s.accessToken t,
          Effect.setLinearWebhook s.accessToken t.id])

/-- The `.then` handler of `setLinearWebhook` with its `.catch`: `setDeployed(true)`
and emit `onDeployWebhook` from the captured values; an undefined captured `user`
throws while building the context object and the `.catch` alerts. -/
def setLinearWebhookThen (cap : CheckCapture) (s : CompState) : CompState × List Effect :=
  match cap.user with
  | some u =>
      ({ s with deployed := true },
       [Effect.onDeployWebhook
          { userId := u.id, teamId := cap.chosenTeam.id, apiKey := cap.accessToken }])
  | none =>
      ({ s with deployed := true },
       [Effect.alert ("Error deploying webhook: " ++ typeErrorMsg)])

/-- The `.catch` handler of `setLinearWebhook` for a rejected provisioning call. -/
def setLinearWebhookCatch (s : CompState) (err : String) : CompState × List Effect :=
  (s, [Effect.alert ("Error deploying webhook: " ++ err)])

/-- The `.catch` handler of `saveLinearContext` for a rejected persistence call. -/
def saveLinearContextCatch (s : CompState) (err : String) : CompState × List Effect :=
  (s, [Effect.alert ("Error saving labels to DB: " ++ err)])

/-- Two consecutive invocations of `deployWebhook`, the second seeing the state left
by the first (each click is a separate event, with a re-render in between). -/
def deployTwice (s : CompState) : CompState × List Effect :=
  let r1 := deployWebhook s
  let r2 := deployWebhook r1.1
  (r2.1, r1.2 ++ r2.2)

/-- The synchronous mount pass: effects run top to bottom after the first render, all
closing over the first render's state.  The mount run of the `[accessToken]` effect
sees `initialState.accessToken = ""` and returns; the effect re-runs after the
re-render only if `accessToken` changed. -/
def mountSequence (locCode locState storedVerification : Option String)
    (restoredApiKey : String) : CompState × List Effect :=
  let s0 := initialState
  let r1 := authCodeEffect s0 locCode locState storedVerification
  let s2 := restoreEffect r1.1 restoredApiKey
  let r3 := if s2.accessToken ≠ s0.accessToken then accessTokenEffect s2 else (s2, [])
  (r3.1, r1.2 ++ r3.2)

/-- Recognises the `setLinearWebhook` (webhook-installation) effect. -/
def isSetWebhook : Effect → Bool
  | Effect.setLinearWebhook _ _ => true
  | _ => false

/-- Recognises the `exchangeLinearToken` (token-exchange) effect. -/
def isExchangeCall : Effect → Bool
  | Effect.exchangeLinearToken _ => true
  | _ => false

/-- Recognises the `onDeployWebhook` callback effect. -/
def isDeployCallback : Effect → Bool
  | Effect.onDeployWebhook _ => true
  | _ => false

/-- Recognises the `saveLinearContext` (write) effect. -/
def isSaveContext : Effect → Bool
  | Effect.saveLinearContext _ _ => true
  | _ => false

example : strIncludes "linear-uuid1" "linear" = true := by decide
example : strIncludes "other-provider-uuid" "linear" = false := by decide

/-- Scenario state shared by the C1 development: authenticated component, viewer
known, two teams available, nothing chosen yet. -/
def c1Base : CompState :=
  { initialState with
      accessToken := "tok",
      teams := [{ id := "T1", name := "Team One" }, { id := "T2", name := "Team Two" }],
      user := some { id := "u1" } }

/-- The closure capture produced by selecting team T1 in `c1Base`. -/
def c1Capture : CheckCapture :=
  { chosenTeam := { id := "T1", name := "Team One" }, user := some { id := "u1" },
    accessToken := "tok" }

/-- Selecting T1 in `c1Base`: the dedup check for T1 goes in flight. -/
def c1Select1 : CompState × List Effect × Option CheckCapture :=
  selectTeam c1Base { id := "T1", name := "Team One" }

/-- Reselecting T2 while the T1 check is still in flight. -/
def c1Select2 : CompState × List Effect × Option CheckCapture :=
  selectTeam c1Select1.1 { id := "T2", name := "Team Two" }

/-- The late resolution of the T1 dedup check (`{exists: true}`), running against the
state in which T2 is the chosen team, with the closure capture from the T1 render. -/
def c1Late : CompState × List Effect :=
  checkForExistingTeamHandler c1Capture c1Select2.1 (some { exists_ := true })

/-- Claim C2: `deployWebhook` marks the deployment state `Deployed` synchronously
(before the provisioning promise settles), and when `setLinearWebhook` rejects, the
`.catch` reports the failure to the user while the deployed marking stands — the
optimistic marking happens whether provisioning succeeds or fails. -/
theorem c2_provision_failure_still_deployed (s : CompState) (t : LinearTeam) (err : String)
    (hteam : s.chosenTeam = some t) (hdep : s.deployed = false) :
    Effect.setLinearWebhook s.accessToken t.id ∈ (deployWebhook s).2 ∧
    (deployWebhook s).1.deployed = true ∧
    (setLinearWebhookCatch (deployWebhook s).1 err).1.deployed = true ∧
    Effect.alert ("Error deploying webhook: " ++ err) ∈
      (setLinearWebhookCatch (deployWebhook s).1 err).2 := by
  simp [deployWebhook, setLinearWebhookCatch, hteam, hdep]

theorem c2_witness :
    ({ initialState with chosenTeam := some { id := "T1", name := "Team One" } } :
        CompState).chosenTeam = some { id := "T1", name := "Team One" } ∧
    ({ initialState with chosenTeam := some { id := "T1", name := "Team One" } } :
        CompState).deployed = false ∧
    (Effect.setLinearWebhook "" "T1" ∈
      (deployWebhook
        { initialState with chosenTeam := some { id := "T1", name := "Team One" } }).2 ∧
    (deployWebhook
        { initialState with chosenTeam := some { id := "T1", name := "Team One" } }).1.deployed
      = true ∧
    (setLinearWebhookCatch
        (deployWebhook
          { initialState with chosenTeam := some { id := "T1", name := "Team One" } }).1
        "boom").1.deployed = true ∧
    Effect.alert ("Error deploying webhook: " ++ "boom") ∈
      (setLinearWebhookCatch
        (deployWebhook
          { initialState with chosenTeam := some { id := "T1", name := "Team One" } }).1
        "boom").2) :=
  ⟨rfl, rfl,
   c2_provision_failure_still_deployed
     { initialState with chosenTeam := some { id := "T1", name := "Team One" } }
     { id := "T1", name := "Team One" } "boom" rfl rfl⟩

/-- Claim C4: with no token yet and a `code` parameter present, a returned `state`
that carries the `linear` marker but differs from the stored verification token
produces exactly the invalid-code alert and nothing else — no exchange call, state
unchanged — while a returned `state` equal to the stored token passes validation and
invokes `exchangeLinearToken` with the authorization code. -/
theorem c4_state_validation (s : CompState) (code v w : String)
    (hak : s.accessToken = "") (hv : strIncludes v "linear" = true)
    (hw : strIncludes w "linear" = true) (hne : w ≠ v) :
    authCodeEffect s (some code) (some w) (some v) =
      (s, [Effect.alert "Linear auth returned an invalid code. Please try again."]) ∧
    authCodeEffect s (some code) (some v) (some v) =
      ({ s with loading := true }, [Effect.exchangeLinearToken code]) := by
  simp [authCodeEffect, stateHasLinearMarker, hak, hv, hw, hne]

theorem c4_witness :
    (initialState.accessToken = "" ∧
     strIncludes "linear-uuidY" "linear" = true ∧
     strIncludes "linear-uuidX" "linear" = true ∧
     ("linear-uuidX" : String) ≠ "linear-uuidY") ∧
    (authCodeEffect initialState (some "abc") (some "linear-uuidX") (some "linear-uuidY") =
      (initialState,
       [Effect.alert "Linear auth returned an invalid code. Please try again."]) ∧
     authCodeEffect initialState (some "abc") (some "linear-uuidY") (some "linear-uuidY") =
      ({ initialState with loading := true }, [Effect.exchangeLinearToken "abc"])) :=
  ⟨⟨rfl, by decide, by decide, by decide⟩,
   c4_state_validation initialState "abc" "linear-uuidY" "linear-uuidX" rfl
     (by decide) (by decide) (by decide)⟩

/-- Claim C5: `deployWebhook` is a no-op (state unchanged, no effects) when no team is
chosen or the deployed flag is already set (the flag covers both `Deployed` and
`Exists`); and after a dedup response `{exists: false}` for the chosen team, two
consecutive `deployWebhook` invocations issue `setLinearWebhook` at most once — the
first invocation sets the deployed flag, so the second hits the guard. -/
theorem c5_deploy_idempotent (s s2 : CompState) (t : LinearTeam) (cap : CheckCapture)
    (hguard : s2.chosenTeam = none ∨ s2.deployed = true)
    (hteam : s.chosenTeam = some t) :
    deployWebhook s2 = (s2, []) ∧
    (deployTwice (checkForExistingTeamHandler cap s (some { exists_ := false })).1).2.countP
      isSetWebhook ≤ 1 := by
  constructor
  · rcases hguard with h | h
    · simp [deployWebhook, h]
    · cases hc : s2.chosenTeam with
      | none => simp [deployWebhook, hc]
      | some t2 => simp [deployWebhook, hc, h]
  · simp [checkForExistingTeamHandler, checkExists, deployTwice, deployWebhook, hteam,
      List.countP_cons, isSetWebhook]

theorem c5_witness :
    (initialState.chosenTeam = none ∨ initialState.deployed = true) ∧
    ({ initialState with chosenTeam := some { id := "T1", name := "Team One" } } :
        CompState).chosenTeam = some { id := "T1", name := "Team One" } ∧
    (deployWebhook initialState = (initialState, []) ∧
     (deployTwice
        (checkForExistingTeamHandler c1Capture
          { initialState with chosenTeam := some { id := "T1", name := "Team One" } }
          (some { exists_ := false })).1).2.countP isSetWebhook ≤ 1) :=
  ⟨Or.inl rfl, rfl,
   c5_deploy_idempotent
     { initialState with chosenTeam := some { id := "T1", name := "Team One" } }
     initialState { id := "T1", name := "Team One" } c1Capture (Or.inl rfl) rfl⟩

/-- Claim C8: with the captured viewer populated, a dedup response `{exists: true}`
sets the deployed flag (the `Exists` outcome) and emits exactly the
`onDeployWebhook` callback with `{userId, teamId, apiKey}` from the capture — in
particular no `saveLinearContext` write — while `{exists: false}` clears the
deployed flag (`NotDeployed`) and emits nothing. -/
theorem c8_dedup_response (cap : CheckCapture) (s : CompState) (u : LinearObject)
    (hu : cap.user = some u) :
    checkForExistingTeamHandler cap s (some { exists_ := true }) =
      ({ s with deployed := true, loading := false },
       [Effect.onDeployWebhook
          { userId := u.id, teamId := cap.chosenTeam.id, apiKey := cap.accessToken }]) ∧
    checkForExistingTeamHandler cap s (some { exists_ := false }) =
      ({ s with deployed := false, loading := false }, []) := by
  simp [checkForExistingTeamHandler, checkExists, hu]

theorem c8_witness :
    c1Capture.user = some { id := "u1" } ∧
    (checkForExistingTeamHandler c1Capture c1Base (some { exists_ := true }) =
      ({ c1Base with deployed := true, loading := false },
       [Effect.onDeployWebhook { userId := "u1", teamId := "T1", apiKey := "tok" }]) ∧
     checkForExistingTeamHandler c1Capture c1Base (some { exists_ := false }) =
      ({ c1Base with deployed := false, loading := false }, [])) :=
  ⟨rfl, c8_dedup_response c1Capture c1Base { id := "u1" } rfl⟩

/-- Claim C9: with no token yet and a `code` parameter present, a returned `state`
without the `linear` marker is ignored silently — the effect returns with no alert,
no exchange call, and the state unchanged. -/
theorem c9_foreign_flow_ignored (s : CompState) (code : String)
    (locState storedVerification : Option String)
    (hak : s.accessToken = "") (hmark : stateHasLinearMarker locState = false) :
    authCodeEffect s (some code) locState storedVerification = (s, []) := by
  simp [authCodeEffect, hak, hmark]

theorem c9_witness :
    initialState.accessToken = "" ∧
    stateHasLinearMarker (some "other-provider-uuid") = false ∧
    authCodeEffect initialState (some "abc") (some "other-provider-uuid")
      (some "linear-uuid1") = (initialState, []) :=
  ⟨rfl, by decide,
   c9_foreign_flow_ignored initialState "abc" (some "other-provider-uuid")
     (some "linear-uuid1") rfl (by decide)⟩

/-- Claim C10: when the captured viewer is absent, the `{exists: true}` branch sets
the deployed flag and then throws on the unguarded `user.id` access, so the handler
ends in its `.catch` with an error alert and the `onDeployWebhook` callback is never
emitted. -/
theorem c10_unguarded_user_access (cap : CheckCapture) (s : CompState)
    (hu : cap.user = none) :
    checkForExistingTeamHandler cap s (some { exists_ := true }) =
      ({ s with deployed := true, loading := false },
       [Effect.alert ("Error checking for existing labels: " ++ typeErrorMsg)]) ∧
    (checkForExistingTeamHandler cap s (some { exists_ := true })).2.countP
      isDeployCallback = 0 := by
  simp [checkForExistingTeamHandler, checkExists, hu, List.countP_cons, isDeployCallback]

theorem c10_witness :
    ({ chosenTeam := { id := "T1", name := "Team One" }, user := none,
        accessToken := "tok" } : CheckCapture).user = none ∧
    (checkForExistingTeamHandler
        { chosenTeam := { id := "T1", name := "Team One" }, user := none,
          accessToken := "tok" } c1Base (some { exists_ := true }) =
      ({ c1Base with deployed := true, loading := false },
       [Effect.alert ("Error checking for existing labels: " ++ typeErrorMsg)]) ∧
     (checkForExistingTeamHandler
        { chosenTeam := { id := "T1", name := "Team One" }, user := none,
          accessToken := "tok" } c1Base (some { exists_ := true })).2.countP
        isDeployCallback = 0) :=
  ⟨rfl,
   c10_unguarded_user_access
     { chosenTeam := { id := "T1", name := "Team One" }, user := none,
       accessToken := "tok" } c1Base rfl⟩

/-- Claim C1, counterexample: select T1 (its dedup check goes in flight with capture
`c1Capture`), then select T2.  The reselection does re-run the check against T2, but
when the T1 check later resolves `{exists: true}`, its handler — which never compares
the capture with the now-chosen team — sets the deployed flag in the current state
and emits `onDeployWebhook` for the prior team T1.  This refutes "the late-arriving
result for the prior team is never applied to the deployment state or emitted". -/
theorem c1_counterexample :
    c1Select1.2.2 = some c1Capture ∧
    c1Select2.1.chosenTeam = some { id := "T2", name := "Team Two" } ∧
    Effect.checkForExistingTeam "T2" ∈ c1Select2.2.1 ∧
    c1Late.1.deployed = true ∧
    Effect.onDeployWebhook { userId := "u1", teamId := "T1", apiKey := "tok" } ∈
      c1Late.2 := by
  decide

/-- Claim C1 as amended: reselecting a team does re-run the dedup check against the
newly selected team, but there is no staleness guard — a late `{exists: true}`
resolution for a previously captured team is still applied: it sets the deployed
flag in whatever state is current and emits `onDeployWebhook` built from the stale
capture's team, not the currently chosen one. -/
theorem c1_rerun_but_stale_applied (s : CompState) (team : LinearTeam)
    (cap : CheckCapture) (u : LinearObject) (hu : cap.user = some u) :
    (selectTeam s team).2.1 = [Effect.checkForExistingTeam team.id] ∧
    (checkForExistingTeamHandler cap (selectTeam s team).1
        (some { exists_ := true })).1.deployed = true ∧
    (checkForExistingTeamHandler cap (selectTeam s team).1 (some { exists_ := true })).2 =
      [Effect.onDeployWebhook
        { userId := u.id, teamId := cap.chosenTeam.id, apiKey := cap.accessToken }] := by
  simp [selectTeam, chosenTeamEffect, checkForExistingTeamHandler, checkExists, hu]

theorem c1_witness :
    c1Capture.user = some { id := "u1" } ∧
    ((selectTeam c1Select1.1 { id := "T2", name := "Team Two" }).2.1 =
      [Effect.checkForExistingTeam "T2"] ∧
     (checkForExistingTeamHandler c1Capture
        (selectTeam c1Select1.1 { id := "T2", name := "Team Two" }).1
        (some { exists_ := true })).1.deployed = true ∧
     (checkForExistingTeamHandler c1Capture
        (selectTeam c1Select1.1 { id := "T2", name := "Team Two" }).1
        (some { exists_ := true })).2 =
      [Effect.onDeployWebhook { userId := "u1", teamId := "T1", apiKey := "tok" }]) :=
  ⟨rfl,
   c1_rerun_but_stale_applied c1Select1.1 { id := "T2", name := "Team Two" } c1Capture
     { id := "u1" } rfl⟩

/-- Claim C3, counterexample: a transport error in the token exchange lands in the
`.catch`, which only alerts — it clears neither the URL parameters nor the stored
provider key, refuting "for every token-exchange failure ... clears the stored
provider key ... and clears the redirect query parameters". -/
theorem c3_counterexample :
    (exchangeCatch { initialState with loading := true } "NetworkError").2 =
      [Effect.alert "Error fetching access token: NetworkError"] ∧
    Effect.clearURLParams ∉
      (exchangeCatch { initialState with loading := true } "NetworkError").2 ∧
    Effect.removeStorageItem LINEAR_STORAGE_KEY ∉
      (exchangeCatch { initialState with loading := true } "NetworkError").2 := by
  decide

/-- Claim C3 as amended: only the missing-token failure (`access_token` absent or
empty in a fulfilled response) alerts, clears the URL parameters and removes the
stored provider key; a transport error (rejected promise) only alerts.  Both
failure modes stop the loading indicator. -/
theorem c3_exchange_failure_paths (s : CompState) (err : String) :
    exchangeThen s { access_token := none } =
      ({ s with loading := false },
       [Effect.alert "No Linear access token returned. Please try again.",
        Effect.clearURLParams, Effect.removeStorageItem LINEAR_STORAGE_KEY]) ∧
    exchangeThen s { access_token := some "" } =
      ({ s with loading := false },
       [Effect.alert "No Linear access token returned. Please try again.",
        Effect.clearURLParams, Effect.removeStorageItem LINEAR_STORAGE_KEY]) ∧
    exchangeCatch s err =
      ({ s with loading := false },
       [Effect.alert ("Error fetching access token: " ++ err)]) := by
  simp [exchangeThen, exchangeCatch, isTruthyOptStr]

/-- Claim C6: starting with no viewer known, any context response missing the team
list or the viewer raises the "No Linear user or teams found" alert and cannot leave
the flow Ready (the viewer stays unpopulated: a missing team list throws before the
state updates, a missing viewer stores `undefined`); a response with an empty team
list and a viewer is not an error — no alert, teams set to `[]`, viewer stored. -/
theorem c6_context_fetch (s : CompState) (res : Option ContextResponse) (v : LinearObject)
    (hu : s.user = none) (hmiss : contextResponseMissing res = true) :
    (Effect.alert "No Linear user or teams found" ∈ (getLinearContextHandler s res).2 ∧
     reachedReady (getLinearContextHandler s res).1 = false) ∧
    getLinearContextHandler s
        (some { data := some { teams := some { nodes := [] }, viewer := some v } }) =
      ({ s with teams := [], user := some v }, []) := by
  constructor
  · cases res with
    | none => simp [getLinearContextHandler, contextResponseMissing, reachedReady, hu]
    | some r =>
      cases r with
      | mk dataOpt =>
        cases dataOpt with
        | none => simp [getLinearContextHandler, contextResponseMissing, reachedReady, hu]
        | some d =>
          cases d with
          | mk teamsOpt viewerOpt =>
            cases teamsOpt with
            | none =>
              simp [getLinearContextHandler, contextResponseMissing, reachedReady, hu]
            | some conn =>
              cases viewerOpt with
              | none =>
                simp [getLinearContextHandler, contextResponseMissing, reachedReady]
              | some vv => simp [contextResponseMissing] at hmiss
  · simp [getLinearContextHandler, contextResponseMissing]

theorem c6_witness :
    initialState.user = none ∧
    contextResponseMissing none = true ∧
    ((Effect.alert "No Linear user or teams found" ∈
        (getLinearContextHandler initialState none).2 ∧
      reachedReady (getLinearContextHandler initialState none).1 = false) ∧
     getLinearContextHandler initialState
        (some { data := some { teams := some { nodes := [] },
                               viewer := some { id := "u1" } } }) =
      ({ initialState with teams := [], user := some { id := "u1" } }, [])) :=
  ⟨rfl, rfl, c6_context_fetch initialState none { id := "u1" } rfl rfl⟩

/-- Claim C7, counterexample: on a mount where a restored key "tok" is supplied but
the location still carries a valid `code`/`state` pair (the URL parameters are not
stripped on exchange success, so a reload reproduces this), the mount-time exchange
effect runs with the first render's empty `accessToken` and invokes
`exchangeLinearToken` — even though the restored session also reaches
`Authenticated`.  This refutes "without ever invoking the token-exchange
collaborator". -/
theorem c7_counterexample :
    ("tok" : String) ≠ "" ∧
    Effect.exchangeLinearToken "abc" ∈
      (mountSequence (some "abc") (some "linear-u1") (some "linear-u1") "tok").2 ∧
    Effect.onAuth "tok" ∈
      (mountSequence (some "abc") (some "linear-u1") (some "linear-u1") "tok").2 ∧
    (mountSequence (some "abc") (some "linear-u1") (some "linear-u1") "tok").1.accessToken
      = "tok" := by
  decide

/-- Claim C7 as amended: given a restored key and a location without an
authorization code, the mount reaches `Authenticated` (the token is stored, `onAuth`
fires, the context fetch is issued) and no token-exchange call occurs. -/
theorem c7_restored_skips_exchange (locState storedVerification : Option String)
    (key : String) (hk : key ≠ "") :
    (mountSequence none locState storedVerification key).1.accessToken = key ∧
    (mountSequence none locState storedVerification key).2 =
      [Effect.onAuth key, Effect.getLinearContext key] ∧
    (mountSequence none locState storedVerification key).2.countP isExchangeCall = 0 := by
  simp [mountSequence, authCodeEffect, restoreEffect, accessTokenEffect, initialState,
    userIdTruthy, hk, List.countP_cons, isExchangeCall]

theorem c7_witness :
    ("tok" : String) ≠ "" ∧
    ((mountSequence none none none "tok").1.accessToken = "tok" ∧
     (mountSequence none none none "tok").2 =
       [Effect.onAuth "tok", Effect.getLinearContext "tok"] ∧
     (mountSequence none none none "tok").2.countP isExchangeCall = 0) :=
  ⟨by decide, c7_restored_skips_exchange none none "tok" (by decide)⟩
